import Mathlib

/-!
# Shallow embedding of `typescript-json` (module.ts and application fixtures)

This file embeds the runtime part of the repository's `src/module.ts`
(the `assertType` / `is` / `validate` / `stringify` / `create` /
`application` entry stubs, the `halt` helper, `assertType.predicate`
and `validate.predicate`) together with the JSON-schema application
values asserted by the tests under `test/features/application/`, and
proves the specification claims about them.
-/

/-- A runtime JSON-like value, used both for the `value : unknown`
payload carried by validation errors and for the schema-application
documents that the tests assert. Object key order is significant, as it
is in the emitted schema documents. -/
inductive Json where
  | null : Json
  | bool : Bool → Json
  | num : Int → Json
  | str : String → Json
  | arr : List Json → Json
  | obj : List (String × Json) → Json

/-- First value bound to key `k`, mirroring JavaScript property lookup
on the literal objects of the fixtures. -/
def lookupKey (kvs : List (String × Json)) (k : String) : Option Json :=
  match kvs with
  | [] => none
  | (k2, v) :: rest => if k2 = k then some v else lookupKey rest k

/-- Models JavaScript `s.length` (code-unit count; every string compared
in the embedded code is ASCII, so characters and code units coincide). -/
def jsStrLen (s : String) : Nat := s.data.length

/-- Models JavaScript `s.substring(0, e)`. -/
def jsSubstring0 (s : String) (e : Nat) : String := String.mk (s.data.take e)

/-- `IValidation.IError`: one path-qualified validation diagnostic
(`{path, expected, value}`). -/
structure IValidation.IError where
  path : String
  expected : String
  value : Json

/-- `IValidation`: the accumulating validation result
(`{success, errors}`). -/
structure IValidation where
  success : Bool
  errors : List IValidation.IError

/-- `TypeGuardError`'s construction properties: `{method, path, expected,
value}` (the `method` field is added by the predicate itself). -/
structure TypeGuardError where
  method : String
  path : String
  expected : String
  value : Json

/-- The closure argument of `assertType.predicate`:
`Omit<TypeGuardError.IProps, "method">`. -/
structure ErrorProps where
  path : String
  expected : String
  value : Json

/-- A thrown JavaScript `Error` (only its message is observable here). -/
structure JsError where
  message : String
deriving Repr, DecidableEq

/-- `halt(name)` from `module.ts`: throws an `Error` whose message names
the entry point and points at the tsconfig setup instructions. The
`Empty` success type records that `halt` never returns. -/
def halt (name : String) : Except JsError Empty :=
  Except.error
    ⟨"Error on TSON." ++ name ++
      "(): no transform has been configured. Configure the \"tsconfig.json\" file following the [README.md#setup](https://github.com/samchon/typescript-json#setup)"⟩

/-- The untransformed `assertType()` implementation: `halt("assertType")`. -/
def TSON.assertType : Except JsError Empty := halt "assertType"

/-- The untransformed `is()` implementation: `halt("is")`. -/
def TSON.is : Except JsError Empty := halt "is"

/-- The untransformed `validate()` implementation: `halt("validate")`. -/
def TSON.validate : Except JsError Empty := halt "validate"

/-- The untransformed `stringify()` implementation: `halt("stringify")`. -/
def TSON.stringify : Except JsError Empty := halt "stringify"

/-- The untransformed `create()` implementation: `halt("create")`. -/
def TSON.create : Except JsError Empty := halt "create"

/-- The untransformed `application()` implementation: `halt("application")`. -/
def TSON.application : Except JsError Empty := halt "application"

/-- `assertType.predicate` from `module.ts`: throws a `TypeGuardError`
with method `"TSON.assertType"` and the closure's properties when
`matched === false && exceptionable === true`, and otherwise returns
`matched`. Throwing is modelled with `Except`. -/
def TSON.assertType.predicate (matched exceptionable : Bool)
    (closure : Unit → ErrorProps) : Except TypeGuardError Bool :=
  if matched = false ∧ exceptionable = true then
    let p := closure ()
    Except.error
      { method := "TSON.assertType"
        path := p.path
        expected := p.expected
        value := p.value }
  else
    Except.ok matched

/-- `validate.predicate` from `module.ts`, as a state transformer on the
captured `res : IValidation` accumulator. On `matched === false &&
exceptionable === true` it performs `res.success &&= false`, evaluates
the closure, and pushes the error unless the errors array is non-empty
and `last.length >= error.path.length && last.substring(0,
error.path.length) === error.path` for the previously pushed error's
path `last`; it always returns `matched`. -/
def TSON.validate.predicate (res : IValidation) (matched exceptionable : Bool)
    (closure : Unit → IValidation.IError) : IValidation × Bool :=
  if matched = false ∧ exceptionable = true then
    let res1 : IValidation := { res with success := res.success && false }
    let error := closure ()
    match res1.errors.getLast? with
    | some last =>
      if jsStrLen error.path ≤ jsStrLen last.path ∧
          jsSubstring0 last.path (jsStrLen error.path) = error.path then
        (res1, matched)
      else
        ({ res1 with errors := res1.errors ++ [error] }, matched)
    | none => ({ res1 with errors := res1.errors ++ [error] }, matched)
  else
    (res, matched)

/-- `s` contains `sub` as a contiguous substring. -/
def containsStr (s sub : String) : Prop := ∃ a b : String, s = a ++ sub ++ b

/-- The message names the entry point `TSON.<name>()`. -/
def namesEntry (msg name : String) : Prop := containsStr msg ("TSON." ++ name ++ "()")

/-- The message instructs the caller to configure `tsconfig.json`
following the setup guide. -/
def instructsSetup (msg : String) : Prop :=
  containsStr msg "tsconfig.json" ∧
  containsStr msg "https://github.com/samchon/typescript-json#setup"

/-- `IJsonComponents`: the named-components registry of a schema
application (`{schemas: map<name, fragment>}`), with insertion order
kept. -/
structure IJsonComponents where
  schemas : List (String × Json)

/-- `IJsonApplication`: a schema application as asserted by the tests:
root schemas in request order, the components registry, the purpose,
and the `$ref` path head (the test fixtures' `prefix` field, renamed
here because that word is reserved in this development). -/
structure IJsonApplication where
  schemas : List Json
  components : IJsonComponents
  purpose : String
  refBase : String

/-- Does the literal object carry key `k`? -/
def hasKeyB (kvs : List (String × Json)) (k : String) : Bool :=
  kvs.any fun p => p.1 == k

/-- Does the literal object carry a boolean-valued `nullable` key? -/
def hasNullableBool (kvs : List (String × Json)) : Bool :=
  kvs.any fun p =>
    p.1 == "nullable" &&
      (match p.2 with
       | Json.bool _ => true
       | _ => false)

/-- Shallow nullable discipline of one schema fragment: a `$ref` or
`oneOf` fragment must carry no `nullable` key; the empty fragment is
exempt; every other fragment must carry a boolean `nullable`. -/
def fragShallowOk (kvs : List (String × Json)) : Bool :=
  if hasKeyB kvs "$ref" || hasKeyB kvs "oneOf" then !hasKeyB kvs "nullable"
  else if kvs.isEmpty then true
  else hasNullableBool kvs

/-- Recursive nullable discipline over a schema fragment and its
sub-fragments (`items` value, `oneOf` alternatives, `properties`
values). The fuel argument only bounds the recursion depth; it exceeds
the depth of every document considered in this development. -/
def fragOkF : Nat → Json → Bool
  | 0, _ => false
  | n + 1, Json.obj kvs =>
    fragShallowOk kvs &&
      kvs.all fun p =>
        if p.1 == "items" then fragOkF n p.2
        else if p.1 == "oneOf" then
          match p.2 with
          | Json.arr l => l.all fun j => fragOkF n j
          | _ => false
        else if p.1 == "properties" then
          match p.2 with
          | Json.obj props => props.all fun q => fragOkF n q.2
          | _ => false
        else true
  | _ + 1, _ => false

/-- Every object key occurring anywhere in the document, in order. The
fuel argument only bounds the recursion depth. -/
def allKeysF : Nat → Json → List String
  | 0, _ => []
  | n + 1, Json.obj kvs => kvs.foldr (fun p acc => p.1 :: (allKeysF n p.2 ++ acc)) []
  | n + 1, Json.arr l => l.foldr (fun j acc => allKeysF n j ++ acc) []
  | _ + 1, _ => []

/-- Nullable discipline of a whole application: every root schema and
every registered component fragment satisfies `fragOkF`. -/
def appFragsOk (app : IJsonApplication) : Bool :=
  (app.schemas.all fun j => fragOkF 100 j) &&
    (app.components.schemas.all fun p => fragOkF 100 p.2)

/-- The application asserted by `test_application_object_alias`
(`TSON.application<[ObjectAlias]>()`, purpose `swagger`). -/
def aliasApplication : IJsonApplication where
  schemas :=
    [Json.obj
      [("type", Json.str "array"),
       ("items", Json.obj [("$ref", Json.str "#/components/schemas/ObjectAlias.IMember")]),
       ("nullable", Json.bool false)]]
  components :=
    ⟨[("ObjectAlias.IMember",
       Json.obj
        [("type", Json.str "object"),
         ("properties", Json.obj
           [("id", Json.obj [("type", Json.str "string"), ("nullable", Json.bool true)]),
            ("email", Json.obj [("type", Json.str "string"), ("nullable", Json.bool false)]),
            ("name", Json.obj [("type", Json.str "string"), ("nullable", Json.bool false)]),
            ("sex", Json.obj
              [("oneOf", Json.arr
                [Json.obj
                  [("type", Json.str "number"),
                   ("enum", Json.arr [Json.num 2, Json.num 1]),
                   ("nullable", Json.bool true)],
                 Json.obj
                  [("type", Json.str "string"),
                   ("enum", Json.arr [Json.str "male", Json.str "female"]),
                   ("nullable", Json.bool true)]])]),
            ("age", Json.obj [("type", Json.str "number"), ("nullable", Json.bool true)]),
            ("dead", Json.obj [("type", Json.str "boolean"), ("nullable", Json.bool true)])]),
         ("nullable", Json.bool false),
         ("required", Json.arr
           [Json.str "id", Json.str "email", Json.str "name",
            Json.str "sex", Json.str "age", Json.str "dead"]),
         ("jsDocTags", Json.arr [])])]⟩
  purpose := "swagger"
  refBase := "#/components/schemas"

/-- The application asserted by `test_application_object_primitive`
(`TSON.application<[ObjectPrimitive]>()`, purpose `swagger`). -/
def primitiveApplication : IJsonApplication where
  schemas := [Json.obj [("$ref", Json.str "#/components/schemas/__type")]]
  components :=
    ⟨[("__type",
       Json.obj
        [("type", Json.str "object"),
         ("properties", Json.obj
           [("id", Json.obj [("type", Json.str "string"), ("nullable", Json.bool false)]),
            ("extension", Json.obj
              [("type", Json.str "string"),
               ("enum", Json.arr [Json.str "txt", Json.str "md", Json.str "html"]),
               ("nullable", Json.bool false)]),
            ("title", Json.obj [("type", Json.str "string"), ("nullable", Json.bool false)]),
            ("body", Json.obj [("type", Json.str "string"), ("nullable", Json.bool false)]),
            ("files", Json.obj
              [("type", Json.str "array"),
               ("items", Json.obj [("$ref", Json.str "#/components/schemas/__type.o1")]),
               ("nullable", Json.bool false)]),
            ("secret", Json.obj [("type", Json.str "boolean"), ("nullable", Json.bool false)]),
            ("created_at", Json.obj [("type", Json.str "string"), ("nullable", Json.bool false)])]),
         ("nullable", Json.bool false),
         ("required", Json.arr
           [Json.str "id", Json.str "extension", Json.str "title", Json.str "body",
            Json.str "files", Json.str "secret", Json.str "created_at"]),
         ("jsDocTags", Json.arr [])]),
      ("__type.o1",
       Json.obj
        [("type", Json.str "object"),
         ("properties", Json.obj
           [("id", Json.obj [("type", Json.str "string"), ("nullable", Json.bool false)]),
            ("name", Json.obj [("type", Json.str "string"), ("nullable", Json.bool false)]),
            ("extension", Json.obj
              [("type", Json.str "string"), ("nullable", Json.bool false)]),
            ("url", Json.obj [("type", Json.str "string"), ("nullable", Json.bool false)]),
            ("created_at", Json.obj
              [("type", Json.str "string"), ("nullable", Json.bool false)])]),
         ("nullable", Json.bool false),
         ("required", Json.arr
           [Json.str "id", Json.str "name", Json.str "extension",
            Json.str "url", Json.str "created_at"]),
         ("jsDocTags", Json.arr [])])]⟩
  purpose := "swagger"
  refBase := "#/components/schemas"

/-- The application asserted by `test_application_object_intersection`
(`TSON.application<[ObjectIntersection]>()`, purpose `swagger`). -/
def intersectionApplication : IJsonApplication where
  schemas := [Json.obj [("$ref", Json.str "#/components/schemas/ObjectIntersection")]]
  components :=
    ⟨[("ObjectIntersection",
       Json.obj
        [("type", Json.str "object"),
         ("properties", Json.obj
           [("email", Json.obj [("type", Json.str "string"), ("nullable", Json.bool false)]),
            ("name", Json.obj [("type", Json.str "string"), ("nullable", Json.bool false)]),
            ("vulnerable", Json.obj
              [("type", Json.str "boolean"), ("nullable", Json.bool false)])]),
         ("nullable", Json.bool false),
         ("required", Json.arr [Json.str "email", Json.str "name", Json.str "vulnerable"]),
         ("jsDocTags", Json.arr [])])]⟩
  purpose := "swagger"
  refBase := "#/components/schemas"

/-- The application asserted by `test_application_object_closure`
(`TSON.application<[ObjectClosure]>()`, purpose `swagger`). -/
def closureApplication : IJsonApplication where
  schemas := [Json.obj [("$ref", Json.str "#/components/schemas/ObjectClosure.IRecord")]]
  components :=
    ⟨[("ObjectClosure.IRecord",
       Json.obj
        [("type", Json.str "object"),
         ("properties", Json.obj
           [("id", Json.obj [("type", Json.str "string"), ("nullable", Json.bool false)]),
            ("open", Json.obj [])]),
         ("nullable", Json.bool false),
         ("required", Json.arr [Json.str "id", Json.str "open"]),
         ("jsDocTags", Json.arr [])])]⟩
  purpose := "swagger"
  refBase := "#/components/schemas"

/-- The application asserted by `test_application_array_union`
(`TSON.application<[ArrayUnion]>()`, purpose `swagger`). -/
def arrayUnionApplication : IJsonApplication where
  schemas :=
    [Json.obj
      [("type", Json.str "array"),
       ("items", Json.obj
         [("oneOf", Json.arr
           [Json.obj
             [("type", Json.str "array"),
              ("items", Json.obj [("type", Json.str "string"), ("nullable", Json.bool false)]),
              ("nullable", Json.bool false)],
            Json.obj
             [("type", Json.str "array"),
              ("items", Json.obj [("type", Json.str "boolean"), ("nullable", Json.bool false)]),
              ("nullable", Json.bool false)],
            Json.obj
             [("type", Json.str "array"),
              ("items", Json.obj [("type", Json.str "number"), ("nullable", Json.bool false)]),
              ("nullable", Json.bool false)]])]),
       ("nullable", Json.bool false)]]
  components := ⟨[]⟩
  purpose := "swagger"
  refBase := "#/components/schemas"

/-- A parent-level error at `$input.a.b`. -/
def errorAB : IValidation.IError := ⟨"$input.a.b", "IPointer", Json.null⟩

/-- A child-level error at `$input.a.b.c`, one path segment below
`errorAB`. -/
def errorABC : IValidation.IError := ⟨"$input.a.b.c", "string", Json.null⟩

/-- An accumulator whose single recorded error is the parent-level
`errorAB`. -/
def resWithAB : IValidation := ⟨false, [errorAB]⟩

/-- An accumulator whose single recorded error is the child-level
`errorABC`. -/
def resWithABC : IValidation := ⟨false, [errorABC]⟩

/-- A closure producing the child-level error. -/
def produceABC : Unit → IValidation.IError := fun _ => errorABC

/-- A closure producing the parent-level error. -/
def produceAB : Unit → IValidation.IError := fun _ => errorAB

/-- A concrete `assertType.predicate` closure. -/
def sampleProps : Unit → ErrorProps := fun _ => ⟨"$input", "string", Json.null⟩

/-- List-level bridge: the `length`/`take` test performed by
`validate.predicate` holds exactly when the candidate is a list prefix. -/
theorem take_eq_append_iff (p l : List Char) :
    (p.length ≤ l.length ∧ l.take p.length = p) ↔ ∃ t, l = p ++ t := by
  constructor
  · rintro ⟨hle, htake⟩
    refine ⟨l.drop p.length, ?_⟩
    conv_lhs => rw [← List.take_append_drop p.length l]
    rw [htake]
  · rintro ⟨t, rfl⟩
    refine ⟨by simp, ?_⟩
    exact List.take_left p t

/-- String-level bridge: the condition checked by `validate.predicate`
(`last.length >= p.length && last.substring(0, p.length) === p`) holds
exactly when `p` is a string prefix of `last`. -/
theorem jsPrefix_iff (p l : String) :
    (jsStrLen p ≤ jsStrLen l ∧ jsSubstring0 l (jsStrLen p) = p) ↔
      ∃ t : String, l = p ++ t := by
  unfold jsStrLen jsSubstring0
  constructor
  · rintro ⟨hle, htake⟩
    have htake2 : l.data.take p.data.length = p.data := by
      have := congrArg String.data htake
      simpa using this
    obtain ⟨t, ht⟩ := (take_eq_append_iff p.data l.data).mp ⟨hle, htake2⟩
    refine ⟨String.mk t, ?_⟩
    apply String.ext
    rw [String.data_append]
    exact ht
  · rintro ⟨t, rfl⟩
    obtain ⟨hle, htake⟩ := (take_eq_append_iff p.data (p ++ t).data).mpr
      ⟨t.data, by rw [String.data_append]⟩
    refine ⟨hle, ?_⟩
    apply String.ext
    simp [htake]

/-- C10: `validate.predicate` never throws and always returns exactly
its `matched` argument; across one call the accumulator's `success` is
monotone (never reset to `true`) and the `errors` array is append-only
(the prior records survive unchanged, at most one new record is
appended). The Lean model is a total function, which reflects that the
source body contains no `throw`. -/
theorem validate_predicate_total_monotone (res : IValidation) (m e : Bool)
    (c : Unit → IValidation.IError) :
    (TSON.validate.predicate res m e c).2 = m ∧
    ((TSON.validate.predicate res m e c).1.success = true → res.success = true) ∧
    ∃ t, (TSON.validate.predicate res m e c).1.errors = res.errors ++ t := by
  unfold TSON.validate.predicate
  split
  · dsimp only
    split
    · split
      · refine ⟨rfl, ?_, ⟨[], by simp⟩⟩
        intro h
        simp at h
      · refine ⟨rfl, ?_, ⟨[c ()], by simp⟩⟩
        intro h
        simp at h
    · refine ⟨rfl, ?_, ⟨[c ()], by simp⟩⟩
      intro h
      simp at h
  · exact ⟨rfl, fun h => h, ⟨[], by simp⟩⟩

/-- C9: whenever `matched` is `true` or `exceptionable` is `false`,
`validate.predicate` leaves the accumulator entirely unchanged and
returns `matched`; since these are the only cases in which the
recording branch is skipped, an error can be recorded only when
`matched` is `false` and `exceptionable` is `true`. -/
theorem validate_predicate_frame (res : IValidation) (m e : Bool)
    (c : Unit → IValidation.IError) (h : m = true ∨ e = false) :
    TSON.validate.predicate res m e c = (res, m) := by
  unfold TSON.validate.predicate
  rw [if_neg]
  rintro ⟨h1, h2⟩
  rcases h with rfl | rfl
  · cases h1
  · cases h2

/-- Witness for `validate_predicate_frame` at a concrete accumulator. -/
theorem validate_predicate_frame_witness :
    TSON.validate.predicate resWithAB true true produceABC = (resWithAB, true) :=
  validate_predicate_frame resWithAB true true produceABC (Or.inl rfl)

/-- Witness for `validate_predicate_total_monotone` at a concrete
accumulator. -/
theorem validate_predicate_total_monotone_witness :
    (TSON.validate.predicate resWithAB false true produceABC).2 = false ∧
    ∃ t, (TSON.validate.predicate resWithAB false true produceABC).1.errors =
      resWithAB.errors ++ t :=
  ⟨(validate_predicate_total_monotone resWithAB false true produceABC).1,
   (validate_predicate_total_monotone resWithAB false true produceABC).2.2⟩

/-- C1 counterexample: the accumulator's last recorded error sits at
`$input.a.b` and the newly produced error sits at the strict extension
`$input.a.b.c`; contrary to the claim, `validate.predicate` appends the
new, more specific error. -/
theorem validate_predicate_child_error_recorded :
    (TSON.validate.predicate resWithAB false true produceABC).1.errors =
      [errorAB, errorABC] := by
  rfl

/-- C1 (amended): in a failing, exceptionable call, the newly produced
error is dropped exactly when its path is a (possibly equal) string
prefix of the immediately preceding recorded error's path — i.e. the
broader-or-duplicate new error is suppressed and the earlier, more
specific failure is kept; otherwise the new error is appended. -/
theorem validate_predicate_suppression (res : IValidation)
    (last : IValidation.IError) (c : Unit → IValidation.IError)
    (hlast : res.errors.getLast? = some last) :
    ((∃ t : String, last.path = (c ()).path ++ t) →
        (TSON.validate.predicate res false true c).1.errors = res.errors) ∧
    ((¬∃ t : String, last.path = (c ()).path ++ t) →
        (TSON.validate.predicate res false true c).1.errors =
          res.errors ++ [c ()]) := by
  have hres1 : ({ res with success := res.success && false } :
      IValidation).errors.getLast? = some last := hlast
  constructor
  · intro hext
    have hc := (jsPrefix_iff (c ()).path last.path).mpr hext
    unfold TSON.validate.predicate
    rw [if_pos ⟨rfl, rfl⟩]
    dsimp only
    rw [hres1]
    dsimp only
    rw [if_pos hc]
  · intro hnot
    have hc : ¬(jsStrLen (c ()).path ≤ jsStrLen last.path ∧
        jsSubstring0 last.path (jsStrLen (c ()).path) = (c ()).path) :=
      fun h => hnot ((jsPrefix_iff (c ()).path last.path).mp h)
    unfold TSON.validate.predicate
    rw [if_pos ⟨rfl, rfl⟩]
    dsimp only
    rw [hres1]
    dsimp only
    rw [if_neg hc]

/-- Witness for `validate_predicate_suppression`: a broader new error at
`$input.a.b`, produced just after the more specific recorded error at
`$input.a.b.c`, is suppressed. -/
theorem validate_predicate_suppression_witness :
    (TSON.validate.predicate resWithABC false true produceAB).1.errors =
      [errorABC] :=
  (validate_predicate_suppression resWithABC errorABC produceAB rfl).1 ⟨".c", rfl⟩

/-- C2: `assertType.predicate` throws a `TypeGuardError` carrying method
`"TSON.assertType"` together with the closure's path/expected/value
exactly when `matched` is `false` and `exceptionable` is `true`; in
every other case it does not throw and returns `matched` unchanged. -/
theorem assertType_predicate_raises_iff (m e : Bool) (c : Unit → ErrorProps) :
    ((∃ err : TypeGuardError,
        TSON.assertType.predicate m e c = Except.error err ∧
        err.method = "TSON.assertType" ∧ err.path = (c ()).path ∧
        err.expected = (c ()).expected ∧ err.value = (c ()).value) ↔
      (m = false ∧ e = true)) ∧
    ((m = true ∨ e = false) → TSON.assertType.predicate m e c = Except.ok m) := by
  constructor
  · constructor
    · rintro ⟨err, herr, -, -, -, -⟩
      by_contra hne
      have hok : TSON.assertType.predicate m e c = Except.ok m := by
        unfold TSON.assertType.predicate
        rw [if_neg hne]
      rw [hok] at herr
      cases herr
    · rintro ⟨rfl, rfl⟩
      refine ⟨{ method := "TSON.assertType", path := (c ()).path,
                expected := (c ()).expected, value := (c ()).value },
              ?_, rfl, rfl, rfl, rfl⟩
      unfold TSON.assertType.predicate
      rw [if_pos ⟨rfl, rfl⟩]
  · intro h
    unfold TSON.assertType.predicate
    rw [if_neg]
    rintro ⟨h1, h2⟩
    rcases h with rfl | rfl
    · cases h1
    · cases h2

/-- Witness for `assertType_predicate_raises_iff` at a concrete
closure: the fatal case throws with the closure's data, the
non-exceptionable case returns `matched`. -/
theorem assertType_predicate_raises_iff_witness :
    (∃ err : TypeGuardError,
      TSON.assertType.predicate false true sampleProps = Except.error err ∧
      err.method = "TSON.assertType" ∧ err.path = "$input" ∧
      err.expected = "string" ∧ err.value = Json.null) ∧
    TSON.assertType.predicate true false sampleProps = Except.ok true := by
  refine ⟨?_, (assertType_predicate_raises_iff true false sampleProps).2 (Or.inr rfl)⟩
  obtain ⟨err, h1, h2, h3, h4, h5⟩ :=
    (assertType_predicate_raises_iff false true sampleProps).1.mpr ⟨rfl, rfl⟩
  exact ⟨err, h1, h2, h3, h4, h5⟩

set_option maxRecDepth 8192 in
/-- C3: every public entry point invoked without the transformer
configuration throws an `Error` (it produces no value: the success type
is `Empty`), and the message names the invoked function and instructs
the caller to configure `tsconfig.json` per the setup guide. -/
theorem entry_points_fail_loudly :
    (∃ err : JsError, TSON.assertType = Except.error err ∧
      namesEntry err.message "assertType" ∧ instructsSetup err.message) ∧
    (∃ err : JsError, TSON.is = Except.error err ∧
      namesEntry err.message "is" ∧ instructsSetup err.message) ∧
    (∃ err : JsError, TSON.validate = Except.error err ∧
      namesEntry err.message "validate" ∧ instructsSetup err.message) ∧
    (∃ err : JsError, TSON.stringify = Except.error err ∧
      namesEntry err.message "stringify" ∧ instructsSetup err.message) ∧
    (∃ err : JsError, TSON.create = Except.error err ∧
      namesEntry err.message "create" ∧ instructsSetup err.message) ∧
    (∃ err : JsError, TSON.application = Except.error err ∧
      namesEntry err.message "application" ∧ instructsSetup err.message) := by
  refine ⟨?_, ?_, ?_, ?_, ?_, ?_⟩
  · exact ⟨_, rfl, ⟨"Error on ", ": no transform has been configured. Configure the \"tsconfig.json\" file following the [README.md#setup](https://github.com/samchon/typescript-json#setup)", by decide⟩,
      ⟨"Error on TSON.assertType(): no transform has been configured. Configure the \"",
       "\" file following the [README.md#setup](https://github.com/samchon/typescript-json#setup)", by decide⟩,
      ⟨"Error on TSON.assertType(): no transform has been configured. Configure the \"tsconfig.json\" file following the [README.md#setup](",
       ")", by decide⟩⟩
  · exact ⟨_, rfl, ⟨"Error on ", ": no transform has been configured. Configure the \"tsconfig.json\" file following the [README.md#setup](https://github.com/samchon/typescript-json#setup)", by decide⟩,
      ⟨"Error on TSON.is(): no transform has been configured. Configure the \"",
       "\" file following the [README.md#setup](https://github.com/samchon/typescript-json#setup)", by decide⟩,
      ⟨"Error on TSON.is(): no transform has been configured. Configure the \"tsconfig.json\" file following the [README.md#setup](",
       ")", by decide⟩⟩
  · exact ⟨_, rfl, ⟨"Error on ", ": no transform has been configured. Configure the \"tsconfig.json\" file following the [README.md#setup](https://github.com/samchon/typescript-json#setup)", by decide⟩,
      ⟨"Error on TSON.validate(): no transform has been configured. Configure the \"",
       "\" file following the [README.md#setup](https://github.com/samchon/typescript-json#setup)", by decide⟩,
      ⟨"Error on TSON.validate(): no transform has been configured. Configure the \"tsconfig.json\" file following the [README.md#setup](",
       ")", by decide⟩⟩
  · exact ⟨_, rfl, ⟨"Error on ", ": no transform has been configured. Configure the \"tsconfig.json\" file following the [README.md#setup](https://github.com/samchon/typescript-json#setup)", by decide⟩,
      ⟨"Error on TSON.stringify(): no transform has been configured. Configure the \"",
       "\" file following the [README.md#setup](https://github.com/samchon/typescript-json#setup)", by decide⟩,
      ⟨"Error on TSON.stringify(): no transform has been configured. Configure the \"tsconfig.json\" file following the [README.md#setup](",
       ")", by decide⟩⟩
  · exact ⟨_, rfl, ⟨"Error on ", ": no transform has been configured. Configure the \"tsconfig.json\" file following the [README.md#setup](https://github.com/samchon/typescript-json#setup)", by decide⟩,
      ⟨"Error on TSON.create(): no transform has been configured. Configure the \"",
       "\" file following the [README.md#setup](https://github.com/samchon/typescript-json#setup)", by decide⟩,
      ⟨"Error on TSON.create(): no transform has been configured. Configure the \"tsconfig.json\" file following the [README.md#setup](",
       ")", by decide⟩⟩
  · exact ⟨_, rfl, ⟨"Error on ", ": no transform has been configured. Configure the \"tsconfig.json\" file following the [README.md#setup](https://github.com/samchon/typescript-json#setup)", by decide⟩,
      ⟨"Error on TSON.application(): no transform has been configured. Configure the \"",
       "\" file following the [README.md#setup](https://github.com/samchon/typescript-json#setup)", by decide⟩,
      ⟨"Error on TSON.application(): no transform has been configured. Configure the \"tsconfig.json\" file following the [README.md#setup](",
       ")", by decide⟩⟩

/-- C4: in the swagger application for the aliased object, the top-level
schema is an array whose `items` is a `$ref` (under the configured path
head) to the components entry `ObjectAlias.IMember`; that entry's
`required` lists every declared property in declaration order; and the
`sex` property is a pure `oneOf` whose number-enum and string-enum
branches each independently carry `nullable: true`. -/
theorem application_object_alias_facts :
    aliasApplication.purpose = "swagger" ∧
    (∃ kvs, aliasApplication.schemas = [Json.obj kvs] ∧
      lookupKey kvs "type" = some (Json.str "array") ∧
      lookupKey kvs "items" =
        some (Json.obj
          [("$ref", Json.str (aliasApplication.refBase ++ "/ObjectAlias.IMember"))])) ∧
    (∃ mem props req,
      lookupKey aliasApplication.components.schemas "ObjectAlias.IMember" =
        some (Json.obj mem) ∧
      lookupKey mem "properties" = some (Json.obj props) ∧
      props.map Prod.fst = ["id", "email", "name", "sex", "age", "dead"] ∧
      lookupKey mem "required" = some (Json.arr req) ∧
      req = props.map (fun p => Json.str p.1) ∧
      lookupKey props "sex" =
        some (Json.obj
          [("oneOf", Json.arr
            [Json.obj
              [("type", Json.str "number"),
               ("enum", Json.arr [Json.num 2, Json.num 1]),
               ("nullable", Json.bool true)],
             Json.obj
              [("type", Json.str "string"),
               ("enum", Json.arr [Json.str "male", Json.str "female"]),
               ("nullable", Json.bool true)]])])) := by
  exact ⟨rfl, ⟨_, rfl, rfl, rfl⟩, ⟨_, _, _, rfl, rfl, rfl, rfl, rfl, rfl⟩⟩

/-- C5: in the swagger application for the anonymous object, the
components registry holds exactly the generated names `__type` and
`__type.o1`; the root schema is a `$ref` to `__type` under the
configured path head; and `__type`'s `files` property holds the `$ref`
to `__type.o1` (as the `items` of its array fragment). -/
theorem application_object_primitive_names :
    primitiveApplication.components.schemas.map Prod.fst = ["__type", "__type.o1"] ∧
    primitiveApplication.schemas =
      [Json.obj [("$ref", Json.str (primitiveApplication.refBase ++ "/__type"))]] ∧
    (∃ t props files,
      lookupKey primitiveApplication.components.schemas "__type" = some (Json.obj t) ∧
      lookupKey t "properties" = some (Json.obj props) ∧
      lookupKey props "files" = some (Json.obj files) ∧
      lookupKey files "type" = some (Json.str "array") ∧
      lookupKey files "items" =
        some (Json.obj
          [("$ref", Json.str (primitiveApplication.refBase ++ "/__type.o1"))])) := by
  exact ⟨rfl, rfl, ⟨_, _, _, rfl, rfl, rfl, rfl, rfl⟩⟩

/-- C6: in the swagger application for the intersection, one merged flat
object schema sits under the intersection's declared name and is the
target of the root `$ref`; its properties are exactly
email/name/vulnerable, its `required` lists every one of them, and no
`oneOf`/`allOf` key occurs anywhere in the output. -/
theorem application_object_intersection_merged :
    intersectionApplication.components.schemas.map Prod.fst = ["ObjectIntersection"] ∧
    intersectionApplication.schemas =
      [Json.obj
        [("$ref", Json.str (intersectionApplication.refBase ++ "/ObjectIntersection"))]] ∧
    (∃ t props,
      lookupKey intersectionApplication.components.schemas "ObjectIntersection" =
        some (Json.obj t) ∧
      lookupKey t "type" = some (Json.str "object") ∧
      lookupKey t "properties" = some (Json.obj props) ∧
      props.map Prod.fst = ["email", "name", "vulnerable"] ∧
      lookupKey t "required" = some (Json.arr (props.map fun p => Json.str p.1))) ∧
    "oneOf" ∉ allKeysF 100 (Json.obj intersectionApplication.components.schemas) ∧
    "allOf" ∉ allKeysF 100 (Json.obj intersectionApplication.components.schemas) ∧
    "oneOf" ∉ allKeysF 100 (Json.arr intersectionApplication.schemas) ∧
    "allOf" ∉ allKeysF 100 (Json.arr intersectionApplication.schemas) := by
  exact ⟨rfl, rfl, ⟨_, _, rfl, rfl, rfl, rfl, rfl⟩,
    by decide, by decide, by decide, by decide⟩

/-- C7: the `open` property of the closured object lowers to the empty
fragment `{}` (no type, no nullable, no constraints) and still appears
in the enclosing object's `required` list. -/
theorem application_object_closure_open_fragment :
    ∃ t props req,
      lookupKey closureApplication.components.schemas "ObjectClosure.IRecord" =
        some (Json.obj t) ∧
      lookupKey t "properties" = some (Json.obj props) ∧
      lookupKey props "open" = some (Json.obj []) ∧
      lookupKey t "required" = some (Json.arr req) ∧
      Json.str "open" ∈ req := by
  refine ⟨_, _, _, rfl, rfl, rfl, rfl, ?_⟩
  exact List.mem_cons_of_mem _ (List.mem_cons_self _ _)

/-- C8: in every schema application emitted by the repository's
application fixtures, every schema fragment carries an explicit boolean
`nullable` key, except pure `$ref` and pure `oneOf` wrapper fragments
(which carry no `nullable` key) and the empty fragment for fully-open
types. -/
theorem application_nullable_discipline :
    appFragsOk aliasApplication = true ∧
    appFragsOk primitiveApplication = true ∧
    appFragsOk intersectionApplication = true ∧
    appFragsOk closureApplication = true ∧
    appFragsOk arrayUnionApplication = true := by
  exact ⟨by decide, by decide, by decide, by decide, by decide⟩
